import Mathlib

/-!
Verification of the daydream functional-composition library
(`either` / `maybe` / `just` plus the `continue_either` transformation pair).

The C++ containers store their payloads in `std::optional` slots; we embed
them as Lean structures over `Option`.  Dereferencing an empty
`std::optional` (`operator*` with no engaged value) is undefined behaviour
in C++ — operations that can hit it are embedded as `Option`-returning
functions, with `none` standing for the undefined outcome, or as an
`access` result with a distinguished `emptyAccess` outcome.  Functions
whose invocation count matters are embedded in an instrumented variant
that also returns how often the supplied callback was invoked, or a trace
of which side-function was called.
-/

namespace daydream

/-- Models `struct either<L, R>`: two `std::optional` slots `_left` and
`_right` (src/either_maybe_just.cpp lines 37-77). -/
structure either (L R : Type) where
  _left : Option L
  _right : Option R
deriving DecidableEq, Repr

/-- Constructor `either(L l, std::nullptr_t)`: engages the left slot only. -/
def either.mkL {L R : Type} (l : L) : either L R := ⟨some l, none⟩

/-- Constructor `either(std::nullptr_t, R r)`: engages the right slot only. -/
def either.mkR {L R : Type} (r : R) : either L R := ⟨none, some r⟩

/-- `either::has_left`: `bool(_left)`. -/
def either.has_left {L R : Type} (e : either L R) : Bool := e._left.isSome

/-- `either::has_right`: `bool(_right)`. -/
def either.has_right {L R : Type} (e : either L R) : Bool := e._right.isSome

/-- The raw left slot, as read by `either::left` (`*_left`); `none` is the
undefined-behaviour case of dereferencing a disengaged optional. -/
def either.left {L R : Type} (e : either L R) : Option L := e._left

/-- The raw right slot, as read by `either::right` (`*_right`). -/
def either.right {L R : Type} (e : either L R) : Option R := e._right

/-- `either::left_or(l)`: `_left ? *_left : l`. -/
def either.left_or {L R : Type} (e : either L R) (l : L) : L := e._left.getD l

/-- `either::right_or(r)`: `_right ? *_right : r`. -/
def either.right_or {L R : Type} (e : either L R) (r : R) : R := e._right.getD r

/-- The exclusivity invariant: exactly one of the two slots is engaged
("never both, never neither"). -/
def either.exclusive {L R : Type} (e : either L R) : Bool :=
  xor e._left.isSome e._right.isSome

/-- Models `either::swap`, i.e. the member-initializer list
`return {_right, _left};` (line 72): the right slot becomes the left slot
of the result and vice versa.  Note: as written in C++ the statement is
ill-formed whenever `swap` is instantiated, because `either<R, L>` has no
constructor accepting two `std::optional` arguments (g++: "could not
convert ... from brace-enclosed initializer list to either<float, int>");
this definition gives the evident meaning of the initializer list. -/
def either.swap {L R : Type} (e : either L R) : either R L := ⟨e._right, e._left⟩

/-- Models the converting constructor
`either(const either<L2, R2>& e) : _left{e.left()}, _right{e.right()}`
(line 44).  It dereferences BOTH optionals of the source; whenever one of
them is disengaged this is undefined behaviour (`*_left` on an empty
optional), embedded here as `none`.  When both happen to be engaged, the
result has both slots engaged. -/
def either.convert {L R L2 R2 : Type} (f : L → L2) (g : R → R2)
    (e : either L R) : Option (either L2 R2) :=
  match e._left, e._right with
  | some l, some r => some ⟨some (f l), some (g r)⟩
  | _, _ => none

/-- Models `either::left_or_eval` exactly as written in
src/either_maybe_just.cpp line 61: `return _left ? _left : func();`.
The conditional expression has type `std::optional<L>` (the second operand
is the optional member itself, not `*_left`), so the function body yields
the CONTAINER; the declared return type is `L`, and the conversion from
`std::optional<L>` to `L` does not exist, making every instantiation
ill-formed (g++: "cannot convert const std::optional<int> to int in
return").  We embed the conditional's value, with codomain `Option L`. -/
def either.left_or_eval_mj {L R : Type} (e : either L R) (func : Unit → L) :
    Option L :=
  match e._left with
  | some _ => e._left
  | none => some (func ())

/-- A read of a container slot: either the stored value, or the
`EmptyAccess` failure (dereferencing a disengaged `std::optional`, which
in a constant-expression context is rejected outright and at run time is
an unchecked-precondition violation). -/
inductive access (α : Type) where
  | ok (a : α)
  | emptyAccess
deriving DecidableEq, Repr

/-- `either::left()` as an access: `*_left`, failing with `EmptyAccess`
when the left slot is disengaged. -/
def either.leftAcc {L R : Type} (e : either L R) : access L :=
  match e._left with
  | some l => access.ok l
  | none => access.emptyAccess

/-- `either::right()` as an access. -/
def either.rightAcc {L R : Type} (e : either L R) : access R :=
  match e._right with
  | some r => access.ok r
  | none => access.emptyAccess

/-- Models `struct maybe<T>`: a single `std::optional<T>` slot `_val`
(src/either_maybe_just.cpp lines 99-147). -/
structure maybe (T : Type) where
  _val : Option T
deriving DecidableEq, Repr

/-- `maybe::operator bool()`: `bool(_val)`. -/
def maybe.toBool {T : Type} (m : maybe T) : Bool := m._val.isSome

/-- `maybe::operator*()` as an access: `*_val`, failing with `EmptyAccess`
when the slot is disengaged. -/
def maybe.deref {T : Type} (m : maybe T) : access T :=
  match m._val with
  | some v => access.ok v
  | none => access.emptyAccess

/-- `maybe::operator&&(const Func&)`, non-monadic branch of the
`if constexpr` (line 129): `_val ? Ret{cont(*_val)} : Ret{}` with
`Ret = maybe<Res>`. -/
def maybe.and_then {T U : Type} (m : maybe T) (f : T → U) : maybe U :=
  match m._val with
  | some v => ⟨some (f v)⟩
  | none => ⟨none⟩

/-- Instrumented `maybe.and_then`: additionally counts how many times the
callback `cont` was invoked. -/
def maybe.and_then_count {T U : Type} (m : maybe T) (f : T → U) :
    maybe U × Nat :=
  match m._val with
  | some v => (⟨some (f v)⟩, 1)
  | none => (⟨none⟩, 0)

/-- `maybe::operator&&(const Func&)`, monadic branch of the `if constexpr`
(line 126), for a callback returning `maybe<U>`:
`_val ? cont(*_val) : Res{}` with `Res = maybe<U>` (whose default
constructor is the absent maybe). -/
def maybe.and_then_m {T U : Type} (m : maybe T) (f : T → maybe U) : maybe U :=
  match m._val with
  | some v => f v
  | none => ⟨none⟩

/-- Instrumented `maybe.and_then_m`, counting invocations of the callback. -/
def maybe.and_then_m_count {T U : Type} (m : maybe T) (f : T → maybe U) :
    maybe U × Nat :=
  match m._val with
  | some v => (f v, 1)
  | none => (⟨none⟩, 0)

/-- `maybe::operator|(const Func&)` (line 134): literally
`return *this && func;` — non-monadic callback. -/
def maybe.pipe {T U : Type} (m : maybe T) (f : T → U) : maybe U :=
  m.and_then f

/-- `maybe::operator|(const Func&)` for a monadic callback. -/
def maybe.pipe_m {T U : Type} (m : maybe T) (f : T → maybe U) : maybe U :=
  m.and_then_m f

/-- `maybe::operator||(const maybe<U>&)` (line 137):
`_val ? *this : other` (shown at the converting instance `U = T`). -/
def maybe.or_else {T : Type} (m : maybe T) (other : maybe T) : maybe T :=
  match m._val with
  | some _ => m
  | none => other

/-- `maybe::operator||(const U&)` (line 140): `_val ? *_val : t`. -/
def maybe.or_val {T : Type} (m : maybe T) (t : T) : T := m._val.getD t

/-- `maybe::operator||(const Func&)` (line 143): `_val ? *_val : func()`,
instrumented with the number of thunk invocations. -/
def maybe.or_eval {T : Type} (m : maybe T) (func : Unit → T) : T × Nat :=
  match m._val with
  | some v => (v, 0)
  | none => (func (), 1)

/-- Models `struct just<T>`: an always-present value `_val`
(src/either_maybe_just.cpp lines 149-175). -/
structure just (T : Type) where
  _val : T
deriving DecidableEq, Repr

/-- The source's `identity` lambda (line 240): `[](const auto& t) { return t; }`. -/
def identity {T : Type} : T → T := fun t => t

/-- Models `struct continue_either<LeftCont, RightCont>` (lines 177-238):
an immutable pair of unary functions `left` and `right`.  The C++ fields
are arbitrary callables; we type each side by its domain and codomain. -/
structure continue_either (A B C D : Type) where
  left : A → B
  right : C → D

/-- `continue_either::operator|(const continue_either&)` (lines 190-195):
`chainLeft = l => other.left(left(l))`, `chainRight = r => other.right(right(r))`. -/
def continue_either.comp {A B B2 C D D2 : Type}
    (c : continue_either A B C D) (other : continue_either B B2 D D2) :
    continue_either A B2 C D2 :=
  ⟨fun l => other.left (c.left l), fun r => other.right (c.right r)⟩

/-- The identity continuation `continue_either{identity, identity}`. -/
def idCont {A C : Type} : continue_either A A C C := ⟨identity, identity⟩

/-- `struct continue_left` (lines 243-246): the right side defaults to
`identity`. -/
def continue_left {A B C : Type} (f : A → B) : continue_either A B C C :=
  ⟨f, identity⟩

/-- `struct continue_right` (lines 248-251): the left side defaults to
`identity`. -/
def continue_right {A C D : Type} (f : C → D) : continue_either A A C D :=
  ⟨identity, f⟩

/-- `continue_either::operator()(const either<E1, E2>&)` (lines 203-212):
`if (other.has_left()) return {left(other.left()), nullptr};
 return {nullptr, right(other.right())};`.
`none` is the undefined-behaviour case where neither slot is engaged
(then `right(other.right())` dereferences an empty optional). -/
def continue_either.appE {A B C D : Type} (c : continue_either A B C D)
    (e : either A C) : Option (either B D) :=
  match e._left with
  | some a => some (either.mkL (c.left a))
  | none =>
    match e._right with
    | some r => some (either.mkR (c.right r))
    | none => none

/-- Which of the continuation's two stored functions an application invoked. -/
inductive call where
  | callLeft
  | callRight
deriving DecidableEq, Repr

/-- Instrumented `continue_either.appE`: also returns the list of
side-function invocations performed, in order. -/
def continue_either.appE_trace {A B C D : Type} (c : continue_either A B C D)
    (e : either A C) : Option (either B D × List call) :=
  match e._left with
  | some a => some (either.mkL (c.left a), [call.callLeft])
  | none =>
    match e._right with
    | some r => some (either.mkR (c.right r), [call.callRight])
    | none => none

/-- `continue_either::operator()(const maybe<T>&)` (lines 214-231),
non-monadic branch, instrumented with the invocation trace.  On a present
maybe, `left(*other)` is wrapped as `Ret{left(*other)}`; on an absent
maybe, `right(nullptr)` is invoked as a hook (its result discarded; the
`nullptr` argument is embedded as `Unit`) and an absent maybe is
returned.  -/
def continue_either.appM_trace {A B D : Type} (c : continue_either A B Unit D)
    (m : maybe A) : maybe B × List call :=
  match m._val with
  | some v => (⟨some (c.left v)⟩, [call.callLeft])
  | none => (⟨none⟩, [call.callRight])

/-- `continue_either::operator()(const maybe<T>&)`, monadic branch
(`Res = maybe<U>`), instrumented: on a present maybe the result
`left(*other)` is returned as-is; on an absent maybe `right(nullptr)` is
invoked and the default-constructed `Res{}` (absent maybe) is returned. -/
def continue_either.appM_m_trace {A B D : Type}
    (c : continue_either A (maybe B) Unit D) (m : maybe A) :
    maybe B × List call :=
  match m._val with
  | some v => (c.left v, [call.callLeft])
  | none => (⟨none⟩, [call.callRight])

/-- `either::operator|(const Func&)` (line 70) applied to a
`continue_either`: `return cont(*this);`. -/
def either.pipe {A B C D : Type} (e : either A C)
    (c : continue_either A B C D) : Option (either B D) :=
  c.appE e

/-- `just::operator|(const Func&)` (lines 163-171), non-monadic branch:
`res = cont(_val)` is not a family member, so it is wrapped as `just{res}`. -/
def just.pipe {T U : Type} (j : just T) (f : T → U) : just U := ⟨f j._val⟩

/-- `just::operator|(const Func&)`, branch where the callback returns an
`either` (a family member): `res` is returned unchanged (flattening). -/
def just.pipe_e {T L R : Type} (j : just T) (f : T → either L R) :
    either L R := f j._val

/-- The canonical end-to-end chain `basicUsage`
(src/either_maybe_just.cpp lines 272-283):
`just{12} | (i => i+1) | (i => i==12 ? either{14, nullptr} : either{nullptr, 12.0})
 | continue_either{identity-like, f => f+2.0} | continue_right{f => f*2.0}`.
The `float`/`double` arithmetic of the original is embedded over `Rat`;
every value occurring in the chain (12.0, 14.0, 28.0) and every operation
(+2.0, *2.0) is exact in binary floating point, so the rational embedding
agrees with the C++ arithmetic. -/
def basicUsage : Option (either Int Rat) :=
  (either.pipe
      ((just.pipe ⟨12⟩ (fun i => i + 1)).pipe_e
        (fun i => if i = 12 then either.mkL 14 else either.mkR (12 : Rat)))
      ⟨fun i : Int => i, fun f : Rat => f + 2⟩).bind
    (fun e => e.pipe (continue_right (fun f : Rat => f * 2)))

end daydream

namespace eithercpp

/-- Models `struct Either<L, R>` of src/either.cpp (lines 19-70): the same
two-optional layout as daydream.either. -/
structure Either (L R : Type) where
  _left : Option L
  _right : Option R
deriving DecidableEq, Repr

/-- `Either::left_or_eval` of src/either.cpp (lines 48-51):
`return has_left() ? get_left() : func();`, instrumented with the number
of thunk invocations. -/
def Either.left_or_eval {L R : Type} (e : Either L R) (func : Unit → L) :
    L × Nat :=
  match e._left with
  | some l => (l, 0)
  | none => (func (), 1)

/-- `Either::right_or_eval` of src/either.cpp (lines 57-60), instrumented. -/
def Either.right_or_eval {L R : Type} (e : Either L R) (func : Unit → R) :
    R × Nat :=
  match e._right with
  | some r => (r, 0)
  | none => (func (), 1)

end eithercpp

namespace daydream

/-- C1: the canonical end-to-end chain — starting from `just{12}`, piping
through `i => i+1`, then `i => i==12 ? either{14, nullptr} : either{nullptr, 12.0}`,
then `continue_either{identity, f => f+2.0}`, then
`continue_right{f => f*2.0}` — yields an `either` holding right `28.0`
and no left value. -/
theorem basicUsage_right_28 :
    basicUsage = some (either.mkR 28) ∧
    basicUsage.map either.has_left = some false ∧
    basicUsage.bind (fun e => e._right) = some (28 : Rat) := by
  have h : basicUsage = some (either.mkR 28) := by
    simp only [basicUsage, just.pipe, just.pipe_e, either.pipe,
      continue_either.appE, continue_right, either.mkL, either.mkR, identity]
    norm_num
  refine ⟨h, ?_, ?_⟩ <;> rw [h] <;> rfl

/-- C2: applying a `continue_either` to an `either` invokes exactly one of
the stored functions: on a left-holding input the result is
`either.mkL (left value)` with trace `[callLeft]` (the right function is
never invoked); symmetrically on a right-holding input the result is
`either.mkR (right value)` with trace `[callRight]`. -/
theorem continuation_apply_exclusive {A B C D : Type}
    (c : continue_either A B C D) (e : either A C) :
    (∀ a, e._left = some a →
      c.appE_trace e = some (either.mkL (c.left a), [call.callLeft])) ∧
    (∀ r, e._left = none → e._right = some r →
      c.appE_trace e = some (either.mkR (c.right r), [call.callRight])) := by
  constructor
  · intro a ha
    simp [continue_either.appE_trace, ha]
  · intro r hl hr
    simp [continue_either.appE_trace, hl, hr]

theorem continuation_apply_exclusive_witness :
    (⟨fun n : Nat => n + 1, fun m : Nat => m * 2⟩ :
        continue_either Nat Nat Nat Nat).appE_trace (either.mkL 5) =
      some (either.mkL 6, [call.callLeft]) :=
  (continuation_apply_exclusive _ (either.mkL 5)).1 5 rfl

/-- C3: chaining a transformation onto an absent maybe short-circuits: the
transformation is never invoked (invocation count 0, and for
`continue_either` application the trace holds no `callLeft`), and the
result is an absent maybe typed by the transformation's result. -/
theorem absent_maybe_short_circuits {T U D : Type} (f : T → U)
    (g : T → maybe U) (c : continue_either T U Unit D)
    (cm : continue_either T (maybe U) Unit D) :
    (maybe.mk (none : Option T)).and_then_count f = (maybe.mk none, 0) ∧
    (maybe.mk (none : Option T)).and_then_m_count g = (maybe.mk none, 0) ∧
    c.appM_trace (maybe.mk none) = (maybe.mk none, [call.callRight]) ∧
    cm.appM_m_trace (maybe.mk none) = (maybe.mk none, [call.callRight]) :=
  ⟨rfl, rfl, rfl, rfl⟩

/-- C4: the `left_or_eval` contract.  For src/either.cpp's `Either` the
claim holds: a present left side is returned with the thunk invoked zero
times, and an absent left side invokes the thunk exactly once and returns
its result.  src/either_maybe_just.cpp's `either::left_or_eval`, embedded
as `left_or_eval_mj`, instead yields the optional CONTAINER (`_left`
itself, not `*_left`): its value on a present side is `some l`, of type
`Option L`, which the declared C++ return type `L` cannot be initialized
from — every instantiation is ill-formed. -/
theorem left_or_eval_contract {L R : Type} (l : L) (f : Unit → L)
    (e : eithercpp.Either L R) (e2 : either L R) :
    (eithercpp.Either.mk (some l) (none : Option R)).left_or_eval f = (l, 0) ∧
    (e._left = none → e.left_or_eval f = (f (), 1)) ∧
    (e2._left = some l → e2.left_or_eval_mj f = some l) ∧
    (either.mk (none : Option L) (none : Option R)).left_or_eval_mj f =
      some (f ()) := by
  refine ⟨rfl, ?_, ?_, rfl⟩
  · intro h
    simp [eithercpp.Either.left_or_eval, h]
  · intro h
    simp [either.left_or_eval_mj, h]

theorem left_or_eval_contract_witness :
    (eithercpp.Either.mk (none : Option Nat)
        (none : Option Nat)).left_or_eval (fun _ => 3) = (3, 1) ∧
    (either.mk (some 7) (none : Option Nat)).left_or_eval_mj (fun _ => 3) =
      some 7 :=
  ⟨(left_or_eval_contract 7 (fun _ => 3) ⟨none, none⟩
      (⟨some 7, none⟩ : either Nat Nat)).2.1 rfl,
   (left_or_eval_contract 7 (fun _ => 3)
      (⟨none, none⟩ : eithercpp.Either Nat Nat) ⟨some 7, none⟩).2.2.1 rfl⟩

/-- C5: `swap` (as the member-initializer `{_right, _left}` means) returns
the either with the sides exchanged — a left-holding value becomes
right-holding with the same payload and vice versa — and it is an
involution. -/
theorem swap_exchanges_and_involutive {L R : Type} (l : L) (r : R)
    (e : either L R) :
    (either.mkL l : either L R).swap = either.mkR l ∧
    (either.mkR r : either L R).swap = either.mkL r ∧
    e.swap.swap = e :=
  ⟨rfl, rfl, rfl⟩

/-- C6: continuation composition composes each side (second after first),
is associative, and has the identity continuation as a two-sided unit, as
observed through application to any either. -/
theorem continuation_composition_laws {A B B2 B3 C D D2 D3 : Type}
    (c1 : continue_either A B C D) (c2 : continue_either B B2 D D2)
    (c3 : continue_either B2 B3 D2 D3) (e : either A C) (e2 : either A C) :
    (∀ a, (c1.comp c2).left a = c2.left (c1.left a)) ∧
    (∀ r, (c1.comp c2).right r = c2.right (c1.right r)) ∧
    ((c1.comp c2).comp c3).appE e = (c1.comp (c2.comp c3)).appE e ∧
    (idCont.comp c1).appE e2 = c1.appE e2 ∧
    (c1.comp idCont).appE e2 = c1.appE e2 :=
  ⟨fun _ => rfl, fun _ => rfl, rfl, rfl, rfl⟩

/-- C7: the two public constructors establish the exactly-one-side
invariant and continuation application preserves it, but the structural
converting constructor `either<L2,R2> -> either<L,R>` violates the claim:
it dereferences BOTH optionals of its source, so on every either
satisfying the invariant it hits undefined behaviour (embedded as `none`),
and in the only case where it is defined — both slots engaged — its result
breaks the invariant. -/
theorem either_exclusivity_and_convert {L R L2 R2 A B C D : Type}
    (l : L) (r : R) (f : L → L2) (g : R → R2)
    (c : continue_either A B C D) (e0 : either A C) (e : either L R) :
    (either.mkL l : either L R).exclusive = true ∧
    (either.mkR r : either L R).exclusive = true ∧
    (∀ e1, c.appE e0 = some e1 → e1.exclusive = true) ∧
    (e.exclusive = true → e.convert f g = none) ∧
    (∀ e2, e.convert f g = some e2 → e2.exclusive = false) := by
  refine ⟨rfl, rfl, ?_, ?_, ?_⟩
  · intro e1 h
    cases h1 : e0._left <;> cases h2 : e0._right <;>
      simp [continue_either.appE, h1, h2] at h <;>
      simp [← h, either.exclusive, either.mkL, either.mkR]
  · intro hx
    cases h1 : e._left <;> cases h2 : e._right <;>
      simp [either.exclusive, h1, h2] at hx <;>
      simp [either.convert, h1, h2]
  · intro e2 h
    cases h1 : e._left <;> cases h2 : e._right <;>
      simp [either.convert, h1, h2] at h <;>
      simp [← h, either.exclusive]

theorem either_exclusivity_and_convert_witness :
    (either.mkL (5 : Nat) : either Nat Nat).convert (fun n => n + 1)
      (fun n => n + 2) = none :=
  (either_exclusivity_and_convert 5 5 (fun n => n + 1) (fun n => n + 2)
    (idCont : continue_either Nat Nat Nat Nat) (either.mkL 0)
    (either.mkL 5)).2.2.2.1 rfl

/-- C8: the or-combine operator on maybe returns the left operand's value
unchanged when present (the alternative contributing nothing, thunk never
evaluated), and otherwise returns the right operand — for a thunk
alternative, evaluating it exactly once. -/
theorem maybe_or_combine {T : Type} (v t : T) (other : maybe T)
    (f : Unit → T) :
    (maybe.mk (some v)).or_else other = maybe.mk (some v) ∧
    (maybe.mk (none : Option T)).or_else other = other ∧
    (maybe.mk (some v)).or_val t = v ∧
    (maybe.mk (none : Option T)).or_val t = t ∧
    (maybe.mk (some v)).or_eval f = (v, 0) ∧
    (maybe.mk (none : Option T)).or_eval f = (f (), 1) :=
  ⟨rfl, rfl, rfl, rfl, rfl, rfl⟩

/-- C9: reading the absent side of an either, or dereferencing an absent
maybe, fails with the EmptyAccess condition, which is distinguishable from
every normal (`ok`) result; a normal result is returned only when the
queried slot is actually engaged. -/
theorem empty_access_signaled {L R T : Type} (e : either L R) (m : maybe T) :
    (e.has_left = false → e.leftAcc = access.emptyAccess) ∧
    (e.has_right = false → e.rightAcc = access.emptyAccess) ∧
    (∀ v, e.leftAcc = access.ok v → e._left = some v) ∧
    (∀ v, e.rightAcc = access.ok v → e._right = some v) ∧
    (m.toBool = false → m.deref = access.emptyAccess) ∧
    (∀ v, m.deref = access.ok v → m._val = some v) ∧
    (∀ v : T, (access.emptyAccess : access T) ≠ access.ok v) := by
  refine ⟨?_, ?_, ?_, ?_, ?_, ?_, ?_⟩
  · intro h
    cases h1 : e._left
    · simp [either.leftAcc, h1]
    · simp [either.has_left, h1] at h
  · intro h
    cases h1 : e._right
    · simp [either.rightAcc, h1]
    · simp [either.has_right, h1] at h
  · intro v h
    cases h1 : e._left <;> simp [either.leftAcc, h1] at h <;> simp [h]
  · intro v h
    cases h1 : e._right <;> simp [either.rightAcc, h1] at h <;> simp [h]
  · intro h
    cases h1 : m._val
    · simp [maybe.deref, h1]
    · simp [maybe.toBool, h1] at h
  · intro v h
    cases h1 : m._val <;> simp [maybe.deref, h1] at h <;> simp [h]
  · intro v h
    exact access.noConfusion h

theorem empty_access_signaled_witness :
    (either.mkR (3 : Nat) : either Nat Nat).leftAcc = access.emptyAccess ∧
    (maybe.mk (none : Option Nat)).deref = access.emptyAccess :=
  ⟨(empty_access_signaled (either.mkR (3 : Nat) : either Nat Nat)
      (maybe.mk (none : Option Nat))).1 rfl,
   (empty_access_signaled (either.mkR (3 : Nat) : either Nat Nat)
      (maybe.mk (none : Option Nat))).2.2.2.2.1 rfl⟩

/-- C10: on maybe, the chaining operator `|` is the same operation as
`&&`: for every maybe value and every transformation (plain-valued or
maybe-valued), the two agree. -/
theorem pipe_eq_and_then {T U : Type} (m : maybe T) (f : T → U)
    (g : T → maybe U) :
    m.pipe f = m.and_then f ∧ m.pipe_m g = m.and_then_m g :=
  ⟨rfl, rfl⟩

end daydream
